import Mathlib

/-!
Shallow embedding of `zerver/lib/digest.py`: the digest-email module of the
Zulip messaging platform.  Pure functions model each Python function; the
Django ORM store is modelled as an explicit `Store` record threaded through
`handle_digest_email` (the module only ever reads from it).  Timestamps are
epoch seconds as `Int`.  Python dictionaries (`defaultdict`) are modelled as
insertion-ordered association lists; the stable Python `list.sort` is modelled
by the stable Mathlib `List.insertionSort`.  Tie order inside the rankings is
unspecified by the spec, so the particular (deterministic) dictionary order
chosen here is immaterial to the theorems below.
-/

namespace Zulip

/-- Recipient type constants of the `Recipient` model (`Recipient.PERSONAL`,
`Recipient.STREAM`, `Recipient.HUDDLE`). -/
inductive RecipientType
  | personal
  | stream
  | huddle
deriving DecidableEq

/-- Row of the `Recipient` model: a message destination (a stream or a set of
users), identified by primary key `id`, with `type` and `type_id`. -/
structure Recipient where
  id : Nat
  type : RecipientType
  type_id : Nat
deriving DecidableEq

/-- Message sender, exposing the one field the module reads. -/
structure Sender where
  full_name : String
deriving DecidableEq

/-- Row of the `Message` model, restricted to the fields this module reads. -/
structure Message where
  recipient : Recipient
  subject : String
  sender : Sender
  pub_date : Int
deriving DecidableEq

/-- Row of the `UserMessage` model: links a user to a message they received. -/
structure UserMessage where
  user_profile_id : Nat
  message : Message
deriving DecidableEq

/-- Row of the `UserProfile` model, restricted to the fields this module reads. -/
structure UserProfile where
  id : Nat
  realm : Nat
  date_joined : Int
  is_bot : Bool
  full_name : String
  email : String
deriving DecidableEq

/-- Row of the `Stream` model, restricted to the fields this module reads. -/
structure Stream where
  name : String
  realm : Nat
  date_created : Int
deriving DecidableEq

/-- Row of the `Subscription` model, restricted to the fields this module reads. -/
structure Subscription where
  user_profile_id : Nat
  active : Bool
  in_home_view : Bool
  recipient : Recipient
deriving DecidableEq

/-- The persistent store backing the Django ORM queries of the module. -/
structure Store where
  userProfiles : List UserProfile
  streams : List Stream
  userMessages : List UserMessage
  subscriptions : List Subscription
deriving DecidableEq

/-- Conversation key: `(message.recipient.type_id, message.subject)`, i.e. a
(stream, topic) pair.  Derived, never persisted. -/
abbrev ConvKey := Nat × String

/-- Key of the conversation a received message belongs to. -/
def conversationKey (um : UserMessage) : ConvKey :=
  (um.message.recipient.type_id, um.message.subject)

/-- Modelled from the spec: `build_message_list` (from `zerver.lib.actions`,
not part of this source slice) is the external message-list formatter turning
messages into render-ready structures; it is modelled as tagging each message,
which preserves the length and emptiness of the list. -/
structure RenderedMessage where
  message : Message
deriving DecidableEq

/-- Modelled from the spec: external render collaborator
`build_message_list(user, messages)`; one render-ready entry per message. -/
def build_message_list (user_profile : UserProfile) (messages : List Message) :
    List RenderedMessage :=
  messages.map (fun m => RenderedMessage.mk m)

/-- Modelled from the spec: `hashchange_encode` (from `zerver.lib.actions`) is
the external URL-safe-encoding collaborator; no claim depends on its output, so
it is modelled as an abstract placeholder returning its input. -/
def hashchange_encode (s : String) : String := s

/-- Lookup in an association list with a default, modelling
`defaultdict.__getitem__` for keys already inserted (and the default for
missing keys). -/
def assocD {β : Type} (l : List (ConvKey × β)) (k : ConvKey) (dflt : β) : β :=
  match l.find? (fun e => decide (e.1 = k)) with
  | some e => e.2
  | none => dflt

/-- One update `conversation_diversity[key].add(name)` of the diversity
accumulator: the per-key set of sender names is modelled as an
insertion-ordered duplicate-free list. -/
def add_name (l : List (ConvKey × List String)) (k : ConvKey) (n : String) :
    List (ConvKey × List String) :=
  match l with
  | [] => [(k, [n])]
  | (k₂, s) :: rest =>
      if k₂ = k then (k₂, if n ∈ s then s else s ++ [n]) :: rest
      else (k₂, s) :: add_name rest k n

/-- One update `conversation_length[key] += 1` of the length accumulator. -/
def bump (l : List (ConvKey × Nat)) (k : ConvKey) : List (ConvKey × Nat) :=
  match l with
  | [] => [(k, 1)]
  | (k₂, v) :: rest =>
      if k₂ = k then (k₂, v + 1) :: rest
      else (k₂, v) :: bump rest k

/-- Loop step for `conversation_diversity`. -/
def diversity_step (acc : List (ConvKey × List String)) (um : UserMessage) :
    List (ConvKey × List String) :=
  add_name acc (conversationKey um) um.message.sender.full_name

/-- Loop step for `conversation_length`. -/
def length_step (acc : List (ConvKey × Nat)) (um : UserMessage) :
    List (ConvKey × Nat) :=
  bump acc (conversationKey um)

/-- The `conversation_diversity` accumulator after the grouping loop of
`gather_hot_conversations`: for each conversation key, the set of distinct
sender names seen in it. -/
def conversation_diversity (stream_messages : List UserMessage) :
    List (ConvKey × List String) :=
  stream_messages.foldl diversity_step []

/-- The `conversation_length` accumulator after the grouping loop of
`gather_hot_conversations`: for each conversation key, its message count. -/
def conversation_length (stream_messages : List UserMessage) :
    List (ConvKey × Nat) :=
  stream_messages.foldl length_step []

/-- Ranking relation of `diversity_list.sort(key=..., reverse=True)`:
descending by number of distinct senders. -/
def diversity_order (a b : ConvKey × List String) : Prop :=
  b.2.length ≤ a.2.length

instance : DecidableRel diversity_order :=
  fun a b => inferInstanceAs (Decidable (b.2.length ≤ a.2.length))

instance : IsTotal (ConvKey × List String) diversity_order :=
  ⟨fun a b => le_total b.2.length a.2.length⟩

instance : IsTrans (ConvKey × List String) diversity_order :=
  ⟨fun _ _ _ h₁ h₂ => le_trans h₂ h₁⟩

/-- Ranking relation of `length_list.sort(key=..., reverse=True)`:
descending by message count. -/
def length_order (a b : ConvKey × Nat) : Prop :=
  b.2 ≤ a.2

instance : DecidableRel length_order :=
  fun a b => inferInstanceAs (Decidable (b.2 ≤ a.2))

instance : IsTotal (ConvKey × Nat) length_order :=
  ⟨fun a b => le_total b.2 a.2⟩

instance : IsTrans (ConvKey × Nat) length_order :=
  ⟨fun _ _ _ h₁ h₂ => le_trans h₂ h₁⟩

/-- The sorted `diversity_list` of `gather_hot_conversations`. -/
def diversity_list (stream_messages : List UserMessage) :
    List (ConvKey × List String) :=
  List.insertionSort diversity_order (conversation_diversity stream_messages)

/-- The sorted `length_list` of `gather_hot_conversations`. -/
def length_list (stream_messages : List UserMessage) : List (ConvKey × Nat) :=
  List.insertionSort length_order (conversation_length stream_messages)

/-- The fill loop of `gather_hot_conversations`:
`for candidate, _ in length_list: if candidate not in hot_conversations:
append; if len(hot_conversations) >= 4: break`. -/
def hot_fill : List (ConvKey × Nat) → List ConvKey → List ConvKey
  | [], hot_conversations => hot_conversations
  | (candidate, _) :: rest, hot_conversations =>
      let hot₂ := if candidate ∈ hot_conversations then hot_conversations
                  else hot_conversations ++ [candidate]
      if 4 ≤ hot₂.length then hot₂ else hot_fill rest hot₂

/-- The seed selection `[elt[0] for elt in diversity_list[:2]]`: keys of the
top 2 entries of the diversity ranking. -/
def hot_seed (stream_messages : List UserMessage) : List ConvKey :=
  ((diversity_list stream_messages).take 2).map Prod.fst

/-- The selected `hot_conversations` keys: the top 2 of the diversity ranking,
then filled from the length ranking. -/
def hot_conversations_of (stream_messages : List UserMessage) : List ConvKey :=
  hot_fill (length_list stream_messages) (hot_seed stream_messages)

/-- The messages re-queried for the teaser of conversation `(stream_id,
subject)`: `stream_messages.filter(message__recipient__type_id=stream_id,
message__subject=subject)[:2]`, projected to their `message`. -/
def first_few_messages_of (stream_messages : List UserMessage)
    (stream_id : Nat) (subject : String) : List Message :=
  ((stream_messages.filter (fun um =>
      decide (um.message.recipient.type_id = stream_id ∧
              um.message.subject = subject))).take 2).map
    (fun um => um.message)

/-- One `teaser_data` record built by the payload loop of
`gather_hot_conversations`. -/
structure TeaserData where
  participants : List String
  count : Int
  first_few_messages : List RenderedMessage
deriving DecidableEq

/-- Builds the `teaser_data` dictionary for one selected conversation key. -/
def teaser_data (user_profile : UserProfile)
    (stream_messages : List UserMessage) (h : ConvKey) : TeaserData :=
  let users := assocD (conversation_diversity stream_messages) h []
  let count := assocD (conversation_length stream_messages) h 0
  let ffm := first_few_messages_of stream_messages h.1 h.2
  { participants := users
    count := (count : Int) - (ffm.length : Int)
    first_few_messages := build_message_list user_profile ffm }

/-- The payload loop of `gather_hot_conversations`.  Faithful to the source:
the `return hot_conversation_render_payloads` statement sits INSIDE the loop
body, so the first iteration appends one record and returns; when the
selection is empty the loop body never runs and the Python function falls off
the end, returning `None` (modelled as `none`). -/
def hot_payload_loop (user_profile : UserProfile)
    (stream_messages : List UserMessage) (payloads : List TeaserData) :
    List ConvKey → Option (List TeaserData)
  | [] => none
  | h :: _ => some (payloads ++ [teaser_data user_profile stream_messages h])

/-- `gather_hot_conversations(user_profile, stream_messages)`. -/
def gather_hot_conversations (user_profile : UserProfile)
    (stream_messages : List UserMessage) : Option (List TeaserData) :=
  hot_payload_loop user_profile stream_messages []
    (hot_conversations_of stream_messages)

/-- The `new_users` query of `gather_new_users`: non-bot users of the same
realm who joined strictly after the threshold. -/
def new_users_of (store : Store) (user_profile : UserProfile)
    (threshold : Int) : List UserProfile :=
  store.userProfiles.filter (fun u =>
    decide (u.realm = user_profile.realm ∧ threshold < u.date_joined ∧
            u.is_bot = false))

/-- `gather_new_users(user_profile, threshold)`; the store is threaded through
to make the read-only access explicit. -/
def gather_new_users (store : Store) (user_profile : UserProfile)
    (threshold : Int) : (Nat × List String) × Store :=
  let user_names := (new_users_of store user_profile threshold).map
    (fun u => u.full_name)
  ((user_names.length, user_names), store)

/-- The `new_streams` query of `gather_new_streams`: streams of the same realm
created strictly after the threshold. -/
def new_streams_of (store : Store) (user_profile : UserProfile)
    (threshold : Int) : List Stream :=
  store.streams.filter (fun s =>
    decide (s.realm = user_profile.realm ∧ threshold < s.date_created))

/-- The `{"html": ..., "plain": ...}` dictionary returned by
`gather_new_streams`. -/
structure StreamLinks where
  html : List String
  plain : List String
deriving DecidableEq

/-- `gather_new_streams(user_profile, threshold)`. -/
def gather_new_streams (store : Store) (user_profile : UserProfile)
    (threshold : Int) : (Nat × StreamLinks) × Store :=
  let new_streams := new_streams_of store user_profile threshold
  let base_url := "https://zulip.com/#narrow/stream/"
  let streams_html := new_streams.map (fun s =>
    "<a href=\x27" ++ (base_url ++ hashchange_encode s.name) ++ "\x27>" ++
      s.name ++ "</a>")
  let streams_plain := new_streams.map (fun s => s.name)
  ((new_streams.length, StreamLinks.mk streams_html streams_plain), store)

/-- Python truthiness of a list (`if l:`). -/
def py_truthy_list {α : Type} (l : List α) : Bool :=
  !l.isEmpty

/-- Python truthiness of a value that is either `None` or a list, as produced
by `gather_hot_conversations`. -/
def py_truthy_opt_list {α : Type} : Option (List α) → Bool
  | none => false
  | some l => py_truthy_list l

/-- `enough_traffic(unread_pms, hot_conversations, new_streams, new_users)`:
the decision of whether the accumulated signals justify sending the digest. -/
def enough_traffic {α β : Type} (unread_pms : List α)
    (hot_conversations : Option (List β)) (new_streams new_users : Nat) :
    Bool :=
  if py_truthy_list unread_pms || py_truthy_opt_list hot_conversations then
    true
  else if decide (new_streams ≠ 0) && decide (new_users ≠ 0) then
    true
  else
    false

/-- Ordering relation of `order_by("message__pub_date")`. -/
def pub_date_order (a b : UserMessage) : Prop :=
  a.message.pub_date ≤ b.message.pub_date

instance : DecidableRel pub_date_order :=
  fun a b => inferInstanceAs (Decidable (a.message.pub_date ≤ b.message.pub_date))

/-- The `all_messages` query of `handle_digest_email`: the received
messages of the user published strictly after the cutoff, ordered by
publish time. -/
def all_messages_of (store : Store) (user_profile : UserProfile)
    (cutoff : Int) : List UserMessage :=
  List.insertionSort pub_date_order
    (store.userMessages.filter (fun um =>
      decide (um.user_profile_id = user_profile.id ∧
              cutoff < um.message.pub_date)))

/-- The `pms` query: `all_messages.filter(~Q(message__recipient__type=STREAM))`. -/
def pms_of (store : Store) (user_profile : UserProfile) (cutoff : Int) :
    List UserMessage :=
  (all_messages_of store user_profile cutoff).filter (fun um =>
    decide (¬ um.message.recipient.type = RecipientType.stream))

/-- The `home_view_recipients` list: recipients of the active, in-home-view
subscriptions of the user. -/
def home_view_recipients_of (store : Store) (user_profile : UserProfile) :
    List Recipient :=
  (store.subscriptions.filter (fun sub =>
    decide (sub.user_profile_id = user_profile.id ∧ sub.active = true ∧
            sub.in_home_view = true))).map (fun sub => sub.recipient)

/-- The `stream_messages` query: messages to streams among the home-view
recipients of the user. -/
def stream_messages_of (store : Store) (user_profile : UserProfile)
    (cutoff : Int) : List UserMessage :=
  (all_messages_of store user_profile cutoff).filter (fun um =>
    decide (um.message.recipient.type = RecipientType.stream ∧
            um.message.recipient ∈ home_view_recipients_of store user_profile))

/-- The `template_payload` dictionary assembled by `handle_digest_email`,
given explicit fields. -/
structure TemplatePayload where
  name : String
  unread_pms : List RenderedMessage
  remaining_unread_pms_count : Int
  hot_conversations : Option (List TeaserData)
  new_streams : StreamLinks
  new_streams_count : Nat
  new_users : List String
deriving DecidableEq

/-- An email endpoint (the `recipients` / `sender` dictionaries). -/
structure EmailRecipient where
  email : String
  name : String
deriving DecidableEq

/-- Modelled from the spec: the argument record handed to the external
delivery collaborator `send_future_email` (from `zerver.lib.actions`); the
hand-off itself is captured as this transient value. -/
structure SendEmailCall where
  recipients : List EmailRecipient
  html_content : String
  text_content : String
  subject : String
  delay : Int
  sender : EmailRecipient
  tags : List String
deriving DecidableEq

/-- Modelled from the spec: external template-rendering collaborator
`loader.render_to_string`; its output is never inspected by this module, so
it is
modelled as returning the template name. -/
def render_to_string (template_name : String) (_payload : TemplatePayload) :
    String :=
  template_name

/-- Helper for `py_int`: accumulates the decimal value of a digit string,
failing on any non-digit character. -/
def py_digits_aux : List Char → Nat → Option Nat
  | [], acc => some acc
  | c :: cs, acc =>
      if c.isDigit then py_digits_aux cs (acc * 10 + (c.toNat - 48))
      else none

/-- Helper for `py_int`: a non-empty string of decimal digits. -/
def py_digits : List Char → Option Nat
  | [] => none
  | cs => py_digits_aux cs 0

/-- Modelled from the spec: the Python built-in conversion `int(cutoff)`
applied to the textual epoch value — parses an optionally minus-signed
decimal integer and fails (raises) on any other input. -/
def py_int (s : String) : Option Int :=
  match s.data with
  | [] => none
  | c :: cs =>
      if c = Char.ofNat 45 then (py_digits cs).map (fun n => -(n : Int))
      else (py_digits (c :: cs)).map (fun n => (n : Int))

/-- Failure modes of `handle_digest_email` that propagate uncaught: the
`UserProfile.objects.get` lookup failure and the `int(cutoff)` conversion
failure. -/
inductive DigestError
  | userNotFound
  | malformedCutoff
deriving DecidableEq

/-- The outcome of one successful `handle_digest_email` call: the assembled
payload, the two rendered bodies, and the optional hand-off to delivery. -/
structure DigestResult where
  template_payload : TemplatePayload
  text_content : String
  html_content : String
  send : Option SendEmailCall
deriving DecidableEq

deriving instance DecidableEq for Except

/-- `handle_digest_email(user_profile_id, cutoff)`.  The cutoff arrives as the
external textual epoch value handed to `int(...)`; the store is threaded
through explicitly (every access is a read). -/
def handle_digest_email (store : Store) (user_profile_id : Nat)
    (cutoff : String) : Except DigestError DigestResult × Store :=
  match store.userProfiles.find? (fun u => decide (u.id = user_profile_id)) with
  | none => (Except.error DigestError.userNotFound, store)
  | some user_profile =>
    match py_int cutoff with
    | none => (Except.error DigestError.malformedCutoff, store)
    | some cutoff_ts =>
      let pms := pms_of store user_profile cutoff_ts
      let pms_limit : Nat := 4
      let unread_pms := build_message_list user_profile
        ((pms.take pms_limit).map (fun um => um.message))
      let remaining_unread_pms_count : Int :=
        min 0 ((pms.length : Int) - (pms_limit : Int))
      let stream_messages := stream_messages_of store user_profile cutoff_ts
      let hot_conversations :=
        gather_hot_conversations user_profile stream_messages
      let gns := gather_new_streams store user_profile cutoff_ts
      let new_streams_count := gns.1.1
      let new_streams := gns.1.2
      let gnu := gather_new_users store user_profile cutoff_ts
      let new_users_count := gnu.1.1
      let new_users := gnu.1.2
      let template_payload : TemplatePayload :=
        { name := user_profile.full_name
          unread_pms := unread_pms
          remaining_unread_pms_count := remaining_unread_pms_count
          hot_conversations := hot_conversations
          new_streams := new_streams
          new_streams_count := new_streams_count
          new_users := new_users }
      let text_content := render_to_string
        ("zerver/emails/digest/digest_email.txt") template_payload
      let html_content := render_to_string
        ("zerver/emails/digest/digest_email_html.txt") template_payload
      let recipients := [EmailRecipient.mk user_profile.email
        user_profile.full_name]
      let subject := "While you\x27ve been gone: the Zulip Digest"
      let sender := EmailRecipient.mk ("support@zulip.com") ("Zulip Support")
      let send :=
        if enough_traffic unread_pms hot_conversations new_streams_count
            new_users_count then
          some (SendEmailCall.mk recipients html_content text_content subject
            0 sender (["digest-emails"]))
        else
          none
      (Except.ok (DigestResult.mk template_payload text_content html_content
        send), store)

/-- The delivery hand-off, if any, of a `handle_digest_email` outcome: an
error outcome never reaches the send site. -/
def sent_email : Except DigestError DigestResult → Option SendEmailCall
  | Except.error _ => none
  | Except.ok r => r.send

/-! ### Lemmas about the grouping accumulators -/

lemma map_fst_add_name : ∀ (l : List (ConvKey × List String)) (k : ConvKey)
    (n : String),
    (add_name l k n).map Prod.fst =
      if k ∈ l.map Prod.fst then l.map Prod.fst else l.map Prod.fst ++ [k]
  | [], k, n => by simp [add_name]
  | (k₂, s) :: rest, k, n => by
    by_cases hk : k₂ = k
    · subst hk
      simp [add_name]
    · have ih := map_fst_add_name rest k n
      simp only [add_name, if_neg hk, List.map_cons, ih, List.mem_cons]
      by_cases hm : k ∈ rest.map Prod.fst
      · simp [hm]
      · simp [hm, Ne.symm hk]

lemma map_fst_bump : ∀ (l : List (ConvKey × Nat)) (k : ConvKey),
    (bump l k).map Prod.fst =
      if k ∈ l.map Prod.fst then l.map Prod.fst else l.map Prod.fst ++ [k]
  | [], k => by simp [bump]
  | (k₂, v) :: rest, k => by
    by_cases hk : k₂ = k
    · subst hk
      simp [bump]
    · have ih := map_fst_bump rest k
      simp only [bump, if_neg hk, List.map_cons, ih, List.mem_cons]
      by_cases hm : k ∈ rest.map Prod.fst
      · simp [hm]
      · simp [hm, Ne.symm hk]

lemma map_fst_foldl_eq : ∀ (msgs : List UserMessage)
    (d : List (ConvKey × List String)) (cl : List (ConvKey × Nat)),
    d.map Prod.fst = cl.map Prod.fst →
    (msgs.foldl diversity_step d).map Prod.fst =
      (msgs.foldl length_step cl).map Prod.fst
  | [], _, _, h => h
  | um :: rest, d, cl, h => by
    simp only [List.foldl_cons]
    apply map_fst_foldl_eq rest
    rw [diversity_step, length_step, map_fst_add_name, map_fst_bump, h]

/-- The diversity and length accumulators hold exactly the same keys, in the
same order. -/
lemma keys_eq (msgs : List UserMessage) :
    (conversation_diversity msgs).map Prod.fst =
      (conversation_length msgs).map Prod.fst :=
  map_fst_foldl_eq msgs [] [] rfl

lemma nodup_map_fst_bump (l : List (ConvKey × Nat)) (k : ConvKey)
    (h : (l.map Prod.fst).Nodup) : ((bump l k).map Prod.fst).Nodup := by
  rw [map_fst_bump]
  split
  · exact h
  · rename_i hk
    simp [List.nodup_append, h, hk]

lemma nodup_keys_foldl : ∀ (msgs : List UserMessage)
    (cl : List (ConvKey × Nat)), (cl.map Prod.fst).Nodup →
    ((msgs.foldl length_step cl).map Prod.fst).Nodup
  | [], _, h => h
  | um :: rest, cl, h => by
    simp only [List.foldl_cons]
    exact nodup_keys_foldl rest _ (nodup_map_fst_bump cl _ h)

/-- The distinct conversation keys are pairwise distinct as listed in the
length accumulator. -/
lemma nodup_keys_length (msgs : List UserMessage) :
    ((conversation_length msgs).map Prod.fst).Nodup :=
  nodup_keys_foldl msgs [] (by simp)

lemma assocD_nil {β : Type} (k : ConvKey) (dflt : β) :
    assocD [] k dflt = dflt := rfl

lemma assocD_cons {β : Type} (k₃ : ConvKey) (v : β)
    (rest : List (ConvKey × β)) (k : ConvKey) (dflt : β) :
    assocD ((k₃, v) :: rest) k dflt =
      if k₃ = k then v else assocD rest k dflt := by
  by_cases h : k₃ = k <;> simp [assocD, List.find?, h]

lemma assocD_bump (l : List (ConvKey × Nat)) (k k₂ : ConvKey) :
    assocD (bump l k₂) k 0 = assocD l k 0 + (if k = k₂ then 1 else 0) := by
  induction l with
  | nil =>
    by_cases h : k₂ = k
    · subst h; simp [bump, assocD_cons, assocD_nil]
    · simp [bump, assocD_cons, assocD_nil, h, Ne.symm h]
  | cons e rest ih =>
    obtain ⟨k₃, v⟩ := e
    by_cases h₃ : k₃ = k₂
    · rw [bump, if_pos h₃, assocD_cons, assocD_cons]
      by_cases hk : k₃ = k
      · have hkk : k = k₂ := by rw [← hk, h₃]
        simp [hk, hkk]
      · have hkk : ¬ k = k₂ := fun hh => hk (h₃.trans hh.symm)
        simp [hk, hkk]
    · rw [bump, if_neg h₃, assocD_cons, assocD_cons]
      by_cases hk : k₃ = k
      · have hkk : ¬ k = k₂ := fun hh => h₃ (hk.trans hh)
        simp [hk, hkk]
      · simp [hk, ih]

lemma assocD_foldl_length : ∀ (msgs : List UserMessage)
    (cl : List (ConvKey × Nat)) (k : ConvKey),
    assocD (msgs.foldl length_step cl) k 0 =
      assocD cl k 0 +
        (msgs.filter (fun um => decide (conversationKey um = k))).length
  | [], _, _ => by simp
  | um :: rest, cl, k => by
    simp only [List.foldl_cons, List.filter_cons]
    rw [assocD_foldl_length rest (length_step cl um) k, length_step,
      assocD_bump]
    by_cases h : conversationKey um = k
    · simp [h]
      omega
    · have h₂ : ¬ k = conversationKey um := fun hh => h hh.symm
      simp [h, h₂]

/-- The length accumulator records exactly the number of messages of each
conversation key (and `0` for keys with no message). -/
lemma conversation_length_count (msgs : List UserMessage) (k : ConvKey) :
    assocD (conversation_length msgs) k 0 =
      (msgs.filter (fun um => decide (conversationKey um = k))).length := by
  rw [conversation_length, assocD_foldl_length]
  simp [assocD]

/-! ### The fill loop of the selection -/

/-- Closed form of the fill loop: it appends, in length-ranking order, the
keys not already selected, until 4 keys are selected. -/
lemma hot_fill_closed : ∀ (rest : List (ConvKey × Nat)) (hot : List ConvKey),
    (rest.map Prod.fst).Nodup → hot.length ≤ 4 → (rest ≠ [] → hot.length < 4) →
    hot_fill rest hot =
      hot ++ ((rest.map Prod.fst).filter (fun k =>
        decide (k ∉ hot))).take (4 - hot.length)
  | [], hot, _, _, _ => by simp [hot_fill]
  | (c, v) :: rest, hot, hnd, h4, hlt => by
    have hc4 : hot.length < 4 := hlt (by simp)
    have hndt : (rest.map Prod.fst).Nodup := by
      simp only [List.map_cons, List.nodup_cons] at hnd
      exact hnd.2
    have hcr : c ∉ rest.map Prod.fst := by
      simp only [List.map_cons, List.nodup_cons] at hnd
      exact hnd.1
    simp only [hot_fill]
    by_cases hc : c ∈ hot
    · simp only [if_pos hc, if_neg (by omega : ¬ 4 ≤ hot.length)]
      rw [hot_fill_closed rest hot hndt h4 (fun _ => hc4)]
      simp [List.filter_cons, hc]
    · simp only [if_neg hc, List.length_append, List.length_singleton]
      by_cases h44 : 4 ≤ hot.length + 1
      · have h3 : hot.length = 3 := by omega
        rw [if_pos h44]
        have ht : 4 - hot.length = 1 := by omega
        simp [List.filter_cons, hc, ht, h3]
      · rw [if_neg h44]
        rw [hot_fill_closed rest (hot ++ [c]) hndt (by simp; omega)
          (fun _ => by simp; omega)]
        have hf : (rest.map Prod.fst).filter (fun k =>
            decide (k ∉ hot ++ [c])) =
            (rest.map Prod.fst).filter (fun k => decide (k ∉ hot)) := by
          apply List.filter_congr
          intro x hx
          have hxc : x ≠ c := fun h => hcr (h ▸ hx)
          simp [List.mem_append, hxc]
        have htake : ∀ L : List ConvKey, List.take (4 - hot.length) (c :: L) =
            c :: List.take (4 - (hot.length + 1)) L := by
          intro L
          have h1 : 4 - hot.length = (4 - (hot.length + 1)) + 1 := by omega
          rw [h1, List.take_succ_cons]
        rw [hf]
        simp only [List.map_cons, List.filter_cons, List.length_append,
          List.length_singleton]
        have hcond : (decide (c ∉ hot)) = true := by simp [hc]
        rw [hcond, if_pos rfl, htake, List.append_assoc,
          List.singleton_append]

/-! ### The rankings and the selected keys -/

lemma diversity_list_perm (msgs : List UserMessage) :
    List.Perm (diversity_list msgs) (conversation_diversity msgs) :=
  List.perm_insertionSort _ _

lemma length_list_perm (msgs : List UserMessage) :
    List.Perm (length_list msgs) (conversation_length msgs) :=
  List.perm_insertionSort _ _

lemma diversity_list_sorted (msgs : List UserMessage) :
    List.Sorted diversity_order (diversity_list msgs) :=
  List.sorted_insertionSort _ _

lemma length_list_sorted (msgs : List UserMessage) :
    List.Sorted length_order (length_list msgs) :=
  List.sorted_insertionSort _ _

lemma length_keys_nodup (msgs : List UserMessage) :
    ((length_list msgs).map Prod.fst).Nodup :=
  (((length_list_perm msgs).map Prod.fst).nodup_iff).mpr (nodup_keys_length msgs)

lemma diversity_keys_nodup (msgs : List UserMessage) :
    ((diversity_list msgs).map Prod.fst).Nodup := by
  apply (((diversity_list_perm msgs).map Prod.fst).nodup_iff).mpr
  rw [keys_eq]
  exact nodup_keys_length msgs

lemma keys_count (msgs : List UserMessage) :
    ((length_list msgs).map Prod.fst).length =
      (conversation_length msgs).length := by
  rw [List.length_map]
  exact (length_list_perm msgs).length_eq

lemma hot_seed_eq_take (msgs : List UserMessage) :
    hot_seed msgs = ((diversity_list msgs).map Prod.fst).take 2 := by
  rw [hot_seed, List.map_take]

lemma hot_seed_nodup (msgs : List UserMessage) : (hot_seed msgs).Nodup := by
  rw [hot_seed_eq_take]
  exact (List.take_sublist _ _).nodup (diversity_keys_nodup msgs)

lemma hot_seed_length (msgs : List UserMessage) :
    (hot_seed msgs).length = min 2 (conversation_length msgs).length := by
  rw [hot_seed, List.length_map, List.length_take,
    (diversity_list_perm msgs).length_eq]
  have h : (conversation_diversity msgs).length =
      (conversation_length msgs).length := by
    have h₂ := congrArg List.length (keys_eq msgs)
    simpa using h₂
  rw [h]

lemma hot_seed_subset (msgs : List UserMessage) :
    ∀ x ∈ hot_seed msgs, x ∈ (length_list msgs).map Prod.fst := by
  intro x hx
  rw [hot_seed_eq_take] at hx
  have hx₂ : x ∈ (diversity_list msgs).map Prod.fst :=
    List.take_subset _ _ hx
  have hx₃ : x ∈ (conversation_diversity msgs).map Prod.fst :=
    (((diversity_list_perm msgs).map Prod.fst).mem_iff).mp hx₂
  rw [keys_eq] at hx₃
  exact (((length_list_perm msgs).map Prod.fst).mem_iff).mpr hx₃

/-- Cardinality of removing a duplicate-free sub-collection from a
duplicate-free list. -/
lemma length_filter_not_mem (l s : List ConvKey) (hl : l.Nodup)
    (hs : s.Nodup) (hsub : ∀ x ∈ s, x ∈ l) :
    (l.filter (fun k => decide (k ∉ s))).length = l.length - s.length := by
  have hperm : List.Perm (l.filter (fun k => decide (k ∈ s))) s := by
    apply List.Subperm.antisymm
    · apply List.subperm_of_subset (hl.filter _)
      intro x hx
      have hx₂ := (List.mem_filter.mp hx).2
      exact of_decide_eq_true hx₂
    · apply List.subperm_of_subset hs
      intro x hx
      exact List.mem_filter.mpr ⟨hsub x hx, by simp [hx]⟩
  have h₁ : (l.filter (fun k => decide (k ∈ s))).length = s.length :=
    hperm.length_eq
  have h₂ : (l.filter (fun k => decide (k ∈ s))).length +
      (l.filter (fun k => decide (k ∉ s))).length = l.length := by
    have hp := List.filter_append_perm (fun k => decide (k ∈ s)) l
    have hlen := hp.length_eq
    rw [List.length_append] at hlen
    have hcong : l.filter (fun a => !(decide (a ∈ s))) =
        l.filter (fun k => decide (k ∉ s)) := by
      apply List.filter_congr
      intro x _
      simp
    rw [hcong] at hlen
    exact hlen
  omega

/-- The selection in closed form: the diversity seed, then the
not-yet-selected keys in length-ranking order, cut off at 4 total. -/
lemma hot_selection_closed (msgs : List UserMessage) :
    hot_conversations_of msgs =
      hot_seed msgs ++
        (((length_list msgs).map Prod.fst).filter (fun k =>
          decide (k ∉ hot_seed msgs))).take (4 - (hot_seed msgs).length) := by
  rw [hot_conversations_of]
  apply hot_fill_closed
  · exact length_keys_nodup msgs
  · rw [hot_seed_length]
    exact le_trans (Nat.min_le_left _ _) (by norm_num)
  · intro _
    rw [hot_seed_length]
    exact lt_of_le_of_lt (Nat.min_le_left _ _) (by norm_num)

lemma hot_selection_nodup (msgs : List UserMessage) :
    (hot_conversations_of msgs).Nodup := by
  rw [hot_selection_closed, List.nodup_append]
  refine ⟨hot_seed_nodup msgs, ?_, ?_⟩
  · exact (List.take_sublist _ _).nodup ((length_keys_nodup msgs).filter _)
  · intro a ha hb
    have hmem : a ∈ ((length_list msgs).map Prod.fst).filter (fun k =>
        decide (k ∉ hot_seed msgs)) := List.take_subset _ _ hb
    have hdec := (List.mem_filter.mp hmem).2
    exact (of_decide_eq_true hdec) ha

lemma hot_selection_length (msgs : List UserMessage) :
    (hot_conversations_of msgs).length =
      min 4 (conversation_length msgs).length := by
  rw [hot_selection_closed, List.length_append, List.length_take,
    length_filter_not_mem _ _ (length_keys_nodup msgs) (hot_seed_nodup msgs)
      (hot_seed_subset msgs),
    keys_count, hot_seed_length]
  omega

lemma hot_selection_take_two (msgs : List UserMessage) :
    (hot_conversations_of msgs).take 2 = hot_seed msgs := by
  rw [hot_selection_closed]
  rcases le_or_lt 2 (conversation_length msgs).length with h | h
  · have hlen : (hot_seed msgs).length = 2 := by
      rw [hot_seed_length]
      omega
    rw [List.take_append_of_le_length (by omega)]
    rw [← hlen, List.take_length]
  · have hlen : (hot_seed msgs).length = (conversation_length msgs).length := by
      rw [hot_seed_length]
      omega
    have hperm : List.Perm (hot_seed msgs) ((length_list msgs).map Prod.fst) := by
      apply (List.subperm_of_subset (hot_seed_nodup msgs)
        (hot_seed_subset msgs)).perm_of_length_le
      rw [keys_count, hlen]
    have hfil : ((length_list msgs).map Prod.fst).filter (fun k =>
        decide (k ∉ hot_seed msgs)) = [] := by
      rw [List.filter_eq_nil_iff]
      intro a ha
      have hmem : a ∈ hot_seed msgs := hperm.mem_iff.mpr ha
      simp [hmem]
    rw [hfil]
    simp only [List.take_nil, List.append_nil]
    exact List.take_of_length_le (by omega)

/-- C1: the selected conversation keys are the top (up to) 2 of the
diversity-descending ranking, followed by keys drawn in order from the
length-descending ranking skipping those already selected, stopping at 4; the
selection has no duplicates and its size is `min 4 (number of distinct
keys)`. -/
theorem gather_hot_selection_spec (stream_messages : List UserMessage) :
    List.Sorted diversity_order (diversity_list stream_messages) ∧
    List.Sorted length_order (length_list stream_messages) ∧
    List.Perm (diversity_list stream_messages)
      (conversation_diversity stream_messages) ∧
    List.Perm (length_list stream_messages)
      (conversation_length stream_messages) ∧
    (hot_conversations_of stream_messages).take 2 = hot_seed stream_messages ∧
    hot_conversations_of stream_messages =
      hot_seed stream_messages ++
        (((length_list stream_messages).map Prod.fst).filter (fun k =>
          decide (k ∉ hot_seed stream_messages))).take
          (4 - (hot_seed stream_messages).length) ∧
    (hot_conversations_of stream_messages).Nodup ∧
    (hot_conversations_of stream_messages).length =
      min 4 (conversation_length stream_messages).length :=
  ⟨diversity_list_sorted _, length_list_sorted _, diversity_list_perm _,
    length_list_perm _, hot_selection_take_two _, hot_selection_closed _,
    hot_selection_nodup _, hot_selection_length _⟩

/-! ### The payload loop and its early return -/

lemma hot_selection_ne_nil (msgs : List UserMessage)
    (h : conversation_length msgs ≠ []) : hot_conversations_of msgs ≠ [] := by
  have hlen := hot_selection_length msgs
  intro hnil
  rw [hnil] at hlen
  simp only [List.length_nil] at hlen
  have h₀ : (conversation_length msgs).length = 0 := by omega
  exact h (List.length_eq_zero.mp h₀)

/-- C3: whenever at least one conversation key exists, the payload builder
returns exactly one record — that of the first selected key — because the
return statement sits inside the loop body. -/
theorem gather_hot_early_return (user_profile : UserProfile)
    (stream_messages : List UserMessage)
    (h : conversation_length stream_messages ≠ []) :
    ∃ hd tl, hot_conversations_of stream_messages = hd :: tl ∧
      gather_hot_conversations user_profile stream_messages =
        some [teaser_data user_profile stream_messages hd] := by
  obtain ⟨hd, tl, heq⟩ :=
    List.exists_cons_of_ne_nil (hot_selection_ne_nil _ h)
  refine ⟨hd, tl, heq, ?_⟩
  rw [gather_hot_conversations, heq]
  simp [hot_payload_loop]

/-- Concrete sample data used by the witnesses below. -/
def sample_recipient : Recipient := ⟨1, RecipientType.stream, 7⟩

def sample_sender : Sender := ⟨"Alice"⟩

def sample_message : Message := ⟨sample_recipient, "topic", sample_sender, 10⟩

def sample_user_message : UserMessage := ⟨1, sample_message⟩

def sample_recipient₂ : Recipient := ⟨2, RecipientType.stream, 8⟩

def sample_message₂ : Message := ⟨sample_recipient₂, "other", sample_sender, 11⟩

def sample_user_message₂ : UserMessage := ⟨1, sample_message₂⟩

def sample_user : UserProfile := ⟨1, 1, 0, false, "Bob", "bob@zulip.com"⟩

/-- Witness for C3 at a one-message input. -/
theorem gather_hot_early_return_witness :
    ∃ hd tl, hot_conversations_of [sample_user_message] = hd :: tl ∧
      gather_hot_conversations sample_user [sample_user_message] =
        some [teaser_data sample_user [sample_user_message] hd] :=
  gather_hot_early_return sample_user [sample_user_message] (by decide)

/-- C2 (code bug): on an input with two distinct conversation keys the
function returns a single record instead of two, and on an input with no
conversations it returns Python `None` instead of an empty list — the early
return inside the payload loop contradicts the doc comment of the function
("Returns a list of dictionaries ... for each hot conversation"). -/
theorem gather_hot_output_size_bug :
    (conversation_length [sample_user_message, sample_user_message₂]).length
      = 2 ∧
    (gather_hot_conversations sample_user
      [sample_user_message, sample_user_message₂]).map List.length = some 1 ∧
    gather_hot_conversations sample_user [] = none := by
  refine ⟨by decide, by decide, rfl⟩

lemma teaser_count_nonneg (user_profile : UserProfile)
    (msgs : List UserMessage) (k : ConvKey) :
    0 ≤ (teaser_data user_profile msgs k).count := by
  simp only [teaser_data]
  rw [conversation_length_count]
  have h₁ : (first_few_messages_of msgs k.1 k.2).length ≤
      (msgs.filter (fun um => decide (conversationKey um = k))).length := by
    rw [first_few_messages_of, List.length_map, List.length_take]
    have hcong : msgs.filter (fun um =>
        decide (um.message.recipient.type_id = k.1 ∧
          um.message.subject = k.2)) =
        msgs.filter (fun um => decide (conversationKey um = k)) := by
      apply List.filter_congr
      intro um _
      apply decide_eq_decide.mpr
      simp [conversationKey, Prod.ext_iff]
    rw [hcong]
    exact Nat.min_le_right _ _
  omega

/-- C10: every record in the output of `gather_hot_conversations` carries a
non-negative remaining-message count: the (at most 2) teaser messages are
drawn from the very set whose size is the total length of the
conversation. -/
theorem gather_hot_count_nonneg (user_profile : UserProfile)
    (stream_messages : List UserMessage) (l : List TeaserData)
    (h : gather_hot_conversations user_profile stream_messages = some l) :
    ∀ td ∈ l, 0 ≤ td.count := by
  rw [gather_hot_conversations] at h
  cases hsel : hot_conversations_of stream_messages with
  | nil =>
    rw [hsel] at h
    exact absurd h (by simp [hot_payload_loop])
  | cons hd tl =>
    rw [hsel] at h
    simp only [hot_payload_loop, List.nil_append, Option.some.injEq] at h
    subst h
    intro td htd
    simp only [List.mem_singleton] at htd
    subst htd
    exact teaser_count_nonneg user_profile stream_messages hd

/-- Witness for C10 at a one-message input. -/
theorem gather_hot_count_nonneg_witness :
    (0 : Int) ≤ (teaser_data sample_user [sample_user_message]
      (7, "topic")).count :=
  gather_hot_count_nonneg sample_user [sample_user_message]
    ([teaser_data sample_user [sample_user_message] (7, "topic")])
    (by decide) (teaser_data sample_user [sample_user_message] (7, "topic"))
    (by decide)

/-! ### The traffic gate -/

/-- C4: `enough_traffic` is true exactly when unread DMs are present, or hot
conversations are present, or both new streams and new users are present; in
particular the four example evaluations of the spec hold. -/
theorem enough_traffic_spec :
    (∀ (unread : List RenderedMessage) (hot : Option (List TeaserData))
      (new_streams new_users : Nat),
      (enough_traffic unread hot new_streams new_users = true ↔
        (unread ≠ [] ∨ (∃ l, hot = some l ∧ l ≠ []) ∨
          (new_streams ≠ 0 ∧ new_users ≠ 0)))) ∧
    (∀ x : RenderedMessage,
      enough_traffic [x] (some ([] : List TeaserData)) 0 0 = true) ∧
    enough_traffic ([] : List RenderedMessage)
      (some ([] : List TeaserData)) 3 2 = true ∧
    enough_traffic ([] : List RenderedMessage)
      (some ([] : List TeaserData)) 3 0 = false ∧
    enough_traffic ([] : List RenderedMessage)
      (some ([] : List TeaserData)) 0 0 = false := by
  refine ⟨?_, fun x => rfl, rfl, rfl, rfl⟩
  intro unread hot new_streams new_users
  cases hot with
  | none =>
    simp [enough_traffic, py_truthy_list, py_truthy_opt_list,
      List.isEmpty_iff]
  | some l =>
    cases l with
    | nil =>
      simp [enough_traffic, py_truthy_list, py_truthy_opt_list,
        List.isEmpty_iff]
    | cons x xs =>
      simp [enough_traffic, py_truthy_list, py_truthy_opt_list,
        List.isEmpty_iff]

/-! ### The gatherers -/

/-- C5: the gatherers are scoped to the realm of the user and to a strict
cutoff comparison: every gathered user is a non-bot of the same realm who
joined strictly after the threshold, every gathered stream is of the same
realm and created strictly after the threshold, and the returned counts and
name lists are exactly those of the respective filtered entity lists. -/
theorem gather_new_entities_scope (store : Store)
    (user_profile : UserProfile) (threshold : Int) :
    (∀ u ∈ new_users_of store user_profile threshold,
      u.is_bot = false ∧ u.realm = user_profile.realm ∧
        threshold < u.date_joined) ∧
    (gather_new_users store user_profile threshold).1.2 =
      (new_users_of store user_profile threshold).map
        (fun u => u.full_name) ∧
    (gather_new_users store user_profile threshold).1.1 =
      (new_users_of store user_profile threshold).length ∧
    (∀ s ∈ new_streams_of store user_profile threshold,
      s.realm = user_profile.realm ∧ threshold < s.date_created) ∧
    (gather_new_streams store user_profile threshold).1.1 =
      (new_streams_of store user_profile threshold).length ∧
    (gather_new_streams store user_profile threshold).1.2.plain =
      (new_streams_of store user_profile threshold).map (fun s => s.name) := by
  refine ⟨?_, rfl, by simp [gather_new_users], ?_, rfl, rfl⟩
  · intro u hu
    have h := of_decide_eq_true (List.mem_filter.mp hu).2
    exact ⟨h.2.2, h.1, h.2.1⟩
  · intro s hs
    exact of_decide_eq_true (List.mem_filter.mp hs).2

def sample_new_user : UserProfile := ⟨2, 1, 5, false, "Carol", "carol@zulip.com"⟩

def sample_stream : Stream := ⟨"general", 1, 5⟩

def sample_store : Store :=
  ⟨[sample_user, sample_new_user], [sample_stream], [], []⟩

/-- Witness for C5 at a concrete store containing one recent user and one
recent stream. -/
theorem gather_new_entities_scope_witness :
    (sample_new_user.is_bot = false ∧
      sample_new_user.realm = sample_user.realm ∧
      (0 : Int) < sample_new_user.date_joined) ∧
    (sample_stream.realm = sample_user.realm ∧
      (0 : Int) < sample_stream.date_created) :=
  ⟨(gather_new_entities_scope sample_store sample_user 0).1
      sample_new_user (by decide),
    (gather_new_entities_scope sample_store sample_user 0).2.2.2.1
      sample_stream (by decide)⟩

/-! ### The orchestrator -/

/-- C6: the remaining-unread-DM count of the payload is `min 0 (total - 4)`,
hence never positive — the inverted use of `min` in the source. -/
theorem remaining_unread_pms_spec (store : Store) (uid : Nat)
    (cutoff : String) (r : DigestResult) (s₂ : Store)
    (h : handle_digest_email store uid cutoff = (Except.ok r, s₂)) :
    r.template_payload.remaining_unread_pms_count ≤ 0 ∧
    (∀ u ts, store.userProfiles.find? (fun v => decide (v.id = uid)) = some u →
      py_int cutoff = some ts →
      r.template_payload.remaining_unread_pms_count =
        min 0 (((pms_of store u ts).length : Int) - 4)) := by
  rcases hfind : store.userProfiles.find? (fun v => decide (v.id = uid))
    with _ | u
  · simp [handle_digest_email, hfind] at h
  · rcases hts : py_int cutoff with _ | ts
    · simp [handle_digest_email, hfind, hts] at h
    · simp only [handle_digest_email, hfind, hts] at h
      rw [Prod.mk.injEq] at h
      obtain ⟨h₁, h₂⟩ := h
      rw [Except.ok.injEq] at h₁
      subst h₁
      constructor
      · exact min_le_left _ _
      · intro u₂ ts₂ hfind₂ hts₂
        simp only [hfind, Option.some.injEq] at hfind₂
        simp only [hts, Option.some.injEq] at hts₂
        subst hfind₂
        subst hts₂
        rfl

lemma isSome_ite_send (c : Bool) (x : SendEmailCall) :
    (if c = true then some x else none : Option SendEmailCall).isSome = c := by
  cases c <;> simp

/-- C7: the rendered email is handed to the delivery collaborator (with zero
delay, the fixed support sender, the fixed subject and the digest tag) exactly
when `enough_traffic` accepts the assembled signals; in a realm with no new
users, no new streams and no messages for the user in the window, no send
occurs. -/
theorem digest_send_gate (store : Store) (uid : Nat) (cutoff : String)
    (r : DigestResult) (s₂ : Store)
    (h : handle_digest_email store uid cutoff = (Except.ok r, s₂)) :
    (r.send.isSome = enough_traffic r.template_payload.unread_pms
      r.template_payload.hot_conversations
      r.template_payload.new_streams_count
      r.template_payload.new_users.length) ∧
    (∀ call, r.send = some call →
      call.delay = 0 ∧
      call.sender = EmailRecipient.mk ("support@zulip.com") ("Zulip Support") ∧
      call.subject = "While you\x27ve been gone: the Zulip Digest" ∧
      call.tags = ["digest-emails"]) ∧
    (∀ u ts,
      store.userProfiles.find? (fun v => decide (v.id = uid)) = some u →
      py_int cutoff = some ts →
      (∀ um ∈ store.userMessages, um.user_profile_id = u.id →
        um.message.pub_date ≤ ts) →
      (∀ st ∈ store.streams, st.realm = u.realm → st.date_created ≤ ts) →
      (∀ v ∈ store.userProfiles, v.realm = u.realm → v.is_bot = false →
        v.date_joined ≤ ts) →
      r.send = none) := by
  rcases hfind : store.userProfiles.find? (fun v => decide (v.id = uid))
    with _ | u
  · simp [handle_digest_email, hfind] at h
  · rcases hts : py_int cutoff with _ | ts
    · simp [handle_digest_email, hfind, hts] at h
    · simp only [handle_digest_email, hfind, hts] at h
      rw [Prod.mk.injEq] at h
      obtain ⟨h₁, h₂⟩ := h
      rw [Except.ok.injEq] at h₁
      subst h₁
      refine ⟨?_, ?_, ?_⟩
      · exact isSome_ite_send _ _
      · intro call hcall
        simp only at hcall
        by_cases hg : enough_traffic
            (build_message_list u (((pms_of store u ts).take 4).map
              (fun um => um.message)))
            (gather_hot_conversations u (stream_messages_of store u ts))
            (gather_new_streams store u ts).1.1
            (gather_new_users store u ts).1.1
        · rw [if_pos hg] at hcall
          injection hcall with hcall
          subst hcall
          exact ⟨rfl, rfl, rfl, rfl⟩
        · rw [if_neg hg] at hcall
          exact absurd hcall (by simp)
      · intro u₂ ts₂ hfind₂ hts₂ hmsg hstr husr
        simp only [hfind, Option.some.injEq] at hfind₂
        simp only [hts, Option.some.injEq] at hts₂
        subst hfind₂
        subst hts₂
        have hflt : store.userMessages.filter (fun um =>
            decide (um.user_profile_id = u.id ∧
              ts < um.message.pub_date)) = [] := by
          rw [List.filter_eq_nil_iff]
          intro um hum
          simp only [decide_eq_true_eq, not_and, not_lt]
          intro hid
          exact hmsg um hum hid
        have hall : all_messages_of store u ts = [] := by
          rw [all_messages_of, hflt]
          rfl
        have hpms : pms_of store u ts = [] := by
          rw [pms_of, hall]
          rfl
        have hsm : stream_messages_of store u ts = [] := by
          rw [stream_messages_of, hall]
          rfl
        have hns : new_streams_of store u ts = [] := by
          rw [new_streams_of, List.filter_eq_nil_iff]
          intro st hst
          simp only [decide_eq_true_eq, not_and, not_lt]
          intro hrealm
          exact hstr st hst hrealm
        have hnu : new_users_of store u ts = [] := by
          rw [new_users_of, List.filter_eq_nil_iff]
          intro v hv
          simp only [decide_eq_true_eq, not_and]
          intro hrealm hlt hbot
          exact absurd hlt (not_lt.mpr (husr v hv hrealm hbot))
        have hgate : enough_traffic
            (build_message_list u (((pms_of store u ts).take 4).map
              (fun um => um.message)))
            (gather_hot_conversations u (stream_messages_of store u ts))
            (gather_new_streams store u ts).1.1
            (gather_new_users store u ts).1.1 = false := by
          rw [hpms, hsm]
          rw [show gather_hot_conversations u [] = none from rfl]
          rw [show build_message_list u ((([] : List UserMessage).take 4).map
            (fun um => um.message)) = [] from rfl]
          simp [gather_new_streams, gather_new_users, hns, hnu,
            enough_traffic, py_truthy_list, py_truthy_opt_list]
        rw [hgate]
        simp

/-- C8: `handle_digest_email` recovers from nothing: an unresolved user
identifier surfaces as the uncaught lookup failure, a malformed cutoff as the
uncaught conversion failure, and in both cases no email is sent and the store
is unchanged. -/
theorem digest_error_propagation (store : Store) (uid : Nat)
    (cutoff : String) :
    (store.userProfiles.find? (fun v => decide (v.id = uid)) = none →
      handle_digest_email store uid cutoff =
        (Except.error DigestError.userNotFound, store) ∧
      sent_email (handle_digest_email store uid cutoff).1 = none) ∧
    (∀ u, store.userProfiles.find? (fun v => decide (v.id = uid)) = some u →
      py_int cutoff = none →
      handle_digest_email store uid cutoff =
        (Except.error DigestError.malformedCutoff, store) ∧
      sent_email (handle_digest_email store uid cutoff).1 = none) := by
  constructor
  · intro hfind
    have heq : handle_digest_email store uid cutoff =
        (Except.error DigestError.userNotFound, store) := by
      simp [handle_digest_email, hfind]
    exact ⟨heq, by rw [heq]; rfl⟩
  · intro u hfind hts
    have heq : handle_digest_email store uid cutoff =
        (Except.error DigestError.malformedCutoff, store) := by
      simp [handle_digest_email, hfind, hts]
    exact ⟨heq, by rw [heq]; rfl⟩

/-- C9: the module is read-only over the store: `handle_digest_email` and the
gatherers return the store they were given, unchanged; the remaining
operations (`gather_hot_conversations`, `enough_traffic`) do not even receive
the store. -/
theorem module_store_readonly (store : Store) (uid : Nat) (cutoff : String)
    (user_profile : UserProfile) (threshold : Int) :
    (handle_digest_email store uid cutoff).2 = store ∧
    (gather_new_users store user_profile threshold).2 = store ∧
    (gather_new_streams store user_profile threshold).2 = store := by
  refine ⟨?_, rfl, rfl⟩
  rcases hfind : store.userProfiles.find? (fun v => decide (v.id = uid))
    with _ | u
  · simp [handle_digest_email, hfind]
  · rcases hts : py_int cutoff with _ | ts
    · simp [handle_digest_email, hfind, hts]
    · simp [handle_digest_email, hfind, hts]

/-! ### Concrete runs of the orchestrator, for the witnesses -/

def sample_store₁ : Store := ⟨[sample_user], [], [], []⟩

/-- The outcome of `handle_digest_email sample_store₁ 1 "0"`: no traffic at
all, so the gate fails and nothing is sent. -/
def sample_result₁ : DigestResult :=
  ⟨⟨"Bob", [], -4, none, ⟨[], []⟩, 0, []⟩,
   "zerver/emails/digest/digest_email.txt",
   "zerver/emails/digest/digest_email_html.txt",
   none⟩

def sample_dm_recipient : Recipient := ⟨3, RecipientType.personal, 1⟩

def sample_dm_message : Message := ⟨sample_dm_recipient, "", sample_sender, 10⟩

def sample_dm_user_message : UserMessage := ⟨1, sample_dm_message⟩

def sample_store₂ : Store := ⟨[sample_user], [], [sample_dm_user_message], []⟩

def sample_send_call : SendEmailCall :=
  ⟨[⟨"bob@zulip.com", "Bob"⟩],
   "zerver/emails/digest/digest_email_html.txt",
   "zerver/emails/digest/digest_email.txt",
   "While you\x27ve been gone: the Zulip Digest", 0,
   ⟨"support@zulip.com", "Zulip Support"⟩, ["digest-emails"]⟩

/-- The outcome of `handle_digest_email sample_store₂ 1 "0"`: one unread DM,
so the gate passes and the email is handed to delivery. -/
def sample_result₂ : DigestResult :=
  ⟨⟨"Bob", [⟨sample_dm_message⟩], -3, none, ⟨[], []⟩, 0, []⟩,
   "zerver/emails/digest/digest_email.txt",
   "zerver/emails/digest/digest_email_html.txt",
   some sample_send_call⟩

/-- Witness for C6 on a store with a known user and no messages. -/
theorem remaining_unread_pms_spec_witness :
    sample_result₁.template_payload.remaining_unread_pms_count ≤ 0 ∧
    sample_result₁.template_payload.remaining_unread_pms_count =
      min 0 (((pms_of sample_store₁ sample_user 0).length : Int) - 4) := by
  have h := remaining_unread_pms_spec sample_store₁ 1 ("0") sample_result₁
    sample_store₁ (by decide)
  exact ⟨h.1, h.2 sample_user 0 (by decide) (by decide)⟩

/-- Witness for C7: a no-traffic store yields no send, and a store with one
unread DM yields a send with zero delay, the fixed sender, subject and tag. -/
theorem digest_send_gate_witness :
    (sample_result₁.send.isSome = enough_traffic
      sample_result₁.template_payload.unread_pms
      sample_result₁.template_payload.hot_conversations
      sample_result₁.template_payload.new_streams_count
      sample_result₁.template_payload.new_users.length) ∧
    sample_result₁.send = none ∧
    (sample_send_call.delay = 0 ∧
      sample_send_call.sender =
        EmailRecipient.mk ("support@zulip.com") ("Zulip Support") ∧
      sample_send_call.subject =
        "While you\x27ve been gone: the Zulip Digest" ∧
      sample_send_call.tags = ["digest-emails"]) := by
  have h₁ := digest_send_gate sample_store₁ 1 ("0") sample_result₁
    sample_store₁ (by decide)
  have h₂ := digest_send_gate sample_store₂ 1 ("0") sample_result₂
    sample_store₂ (by decide)
  exact ⟨h₁.1,
    h₁.2.2 sample_user 0 (by decide) (by decide) (by decide) (by decide)
      (by decide),
    h₂.2.1 sample_send_call (by decide)⟩

/-- Witness for C8: a store without the user errors with the lookup failure;
a non-integer cutoff errors with the conversion failure; neither sends. -/
theorem digest_error_propagation_witness :
    (handle_digest_email (Store.mk [] [] [] []) 1 ("0") =
      (Except.error DigestError.userNotFound, Store.mk [] [] [] []) ∧
      sent_email (handle_digest_email (Store.mk [] [] [] []) 1 ("0")).1 =
        none) ∧
    (handle_digest_email sample_store₁ 1 ("abc") =
      (Except.error DigestError.malformedCutoff, sample_store₁) ∧
      sent_email (handle_digest_email sample_store₁ 1 ("abc")).1 = none) :=
  ⟨(digest_error_propagation (Store.mk [] [] [] []) 1 ("0")).1 rfl,
    (digest_error_propagation sample_store₁ 1 ("abc")).2 sample_user
      (by decide) (by decide)⟩

end Zulip
